import Mathlib

/-!
Verification of the topic-matching, session-lifecycle and payload-formatting
core of the `awsiot` module (`awsiot.py`) of the IoT repository.

Strings are embedded as `List Char` (Python 2 `str` values), so that every
operation is a structural, kernel-computable Lean function.  Each definition
carries a comment pointing at the source lines it embeds.
-/

namespace Awsiot

/-- Python `s.split(c)` for a one-character separator `c`
(every call site in `awsiot.py` passes `'/'`).
`"".split('/') = ['']`, `"a/b".split('/') = ['a','b']`. -/
def pySplitChar (sep : Char) : List Char → List (List Char)
  | [] => [[]]
  | c :: rest =>
    let r := pySplitChar sep rest
    if c = sep then [] :: r
    else
      match r with
      | [] => [[c]]
      | seg :: segs => (c :: seg) :: segs

/-- Worker for `pyReplaceDel`: left-to-right, non-overlapping removal of every
occurrence of the (non-empty) pattern `pat`.  `fuel` is at least the length of
the remaining text, so the `0, l` arm is never reached by `pyReplaceDel`. -/
def replaceDelGo (pat : List Char) : Nat → List Char → List Char
  | _, [] => []
  | 0, l => l
  | fuel + 1, c :: rest =>
    if pat.isPrefixOf (c :: rest) then replaceDelGo pat fuel (List.drop pat.length (c :: rest))
    else c :: replaceDelGo pat fuel rest

/-- Python `input.replace(i, '')` (awsiot.py line 35): removes every
occurrence of `pat` from `s`, scanning left to right without overlap.
Replacing the empty pattern by the empty string leaves `s` unchanged,
exactly as in Python. -/
def pyReplaceDel (s pat : List Char) : List Char :=
  match pat with
  | [] => s
  | _ :: _ => replaceDelGo pat s.length s

/-- Worker for `tokenizer` (awsiot.py lines 56-61): the `while` loop over
`tmp_list`, popping the last segment each iteration.  `fuel` is the initial
segment count, so the `0, _` arm is never reached by `tokenizer`. -/
def tokenizerGo (c : Char) (suffix : Option (List Char)) : Nat → List (List Char) → List (List Char)
  | _, [] => []
  | 0, _ => []
  | fuel + 1, seg :: rest =>
    (match suffix with
      | some suf => List.intercalate [c] (seg :: rest) ++ c :: suf
      | none => List.intercalate [c] (seg :: rest)) :: tokenizerGo c suffix fuel (seg :: rest).dropLast

/-- `tokenizer(s, c, suffix=None)` (awsiot.py lines 53-62): split `s` on `c`,
then emit one candidate per trailing truncation of the segment list, each
candidate being the rejoin of the remaining segments, with `c + suffix`
appended when a suffix is given.  The loop runs once per segment, so an
N-segment path yields N candidates. -/
def tokenizer (s : List Char) (c : Char) (suffix : Option (List Char)) : List (List Char) :=
  let segs := pySplitChar c s
  tokenizerGo c suffix segs.length segs

/-- Python `'{}/{}'.format(command, arg)` when `arg` is present, else just
`command` (awsiot.py lines 45-47): the trailing suffix handed to `tokenizer`
when rebuilding candidate topics. -/
def suffixOf (command : List Char) (arg : Option (List Char)) : List Char :=
  match arg with
  | some a => command ++ '/' :: a
  | none => command

/-- Outcome of a call to `topic_search` (awsiot.py lines 31-50):
`returned cmd arg` models `return command, arg` (and `return None, None`),
`fellThrough` models falling off the `for` loop (Python's implicit `None`),
`typeError` models the `input in commands` membership test raising
`TypeError` when `commands` is `None`. -/
inductive SearchOutcome where
  | typeError : SearchOutcome
  | fellThrough : SearchOutcome
  | returned (command : Option (List Char)) (arg : Option (List Char)) : SearchOutcome
  deriving DecidableEq

/-- awsiot.py line 35: `filter(None, input.replace(i, '').split('/'))` —
the non-empty tokens of the concrete topic after deleting every occurrence
of the candidate `cand`. -/
def pyTemp (input cand : List Char) : List (List Char) :=
  (pySplitChar '/' (pyReplaceDel input cand)).filter (fun t => !t.isEmpty)

/-- awsiot.py lines 36-50, after the token list `temp` has been computed:
`command = temp.pop(0)` if any, `arg = temp.pop(0)` if any.  When no token
survives the filter, `command` is `None`, hence `commands` stays `None` and
the membership test `input in commands` raises `TypeError`; otherwise the
candidates are rebuilt with the extracted command (and argument) as suffix
and compared with `input`. -/
def searchStepTokens (topic input : List Char) : List (List Char) → SearchOutcome
  | [] => SearchOutcome.typeError
  | command :: rest =>
    let arg := rest.head?
    let commands := tokenizer topic '/' (some (suffixOf command arg))
    if input ∈ commands then SearchOutcome.returned (some command) arg
    else SearchOutcome.returned none none

/-- Body of the `if input.startswith(i):` block of `topic_search`
(awsiot.py lines 35-50). -/
def searchStep (topic input cand : List Char) : SearchOutcome :=
  searchStepTokens topic input (pyTemp input cand)

/-- The `for i in topics:` loop of `topic_search` (awsiot.py lines 33-50):
the body returns (or raises) inside the first candidate that `input`
starts with, so later candidates are never examined. -/
def topicSearchGo (topic input : List Char) : List (List Char) → SearchOutcome
  | [] => SearchOutcome.fellThrough
  | cand :: rest =>
    if cand.isPrefixOf input then searchStep topic input cand
    else topicSearchGo topic input rest

/-- `topic_search(topic, input)` (awsiot.py lines 31-50). -/
def topic_search (topic input : List Char) : SearchOutcome :=
  topicSearchGo topic input (tokenizer topic '/' none)

/-- Modelled from the spec (§4.2 step 2, claim C6): the remainder obtained
by removing the FIRST occurrence of the candidate from the concrete topic.
Since the candidate under consideration is a string prefix of the topic,
its first occurrence starts at position 0, so this drops exactly the
candidate's length. -/
def specRemoveFirst (input cand : List Char) : List Char :=
  List.drop cand.length input

/-- One call into the underlying `AWSIoTMQTTClient`, in the order the
Session methods issue them (awsiot.py lines 230-243 and 259-271).
Callbacks are abstracted as numeric identifiers. -/
inductive ClientEvent where
  | configureCredentials (rootCA keyPath certPath : String)
  | configureEndpoint (endPoint : String) (port : Nat)
  | connectCall
  | publishCall (topic payload : String) (qos : Nat)
  | subscribeCall (topic : String) (qos : Nat) (callback : Nat)
  deriving DecidableEq

/-- `Publisher` (awsiot.py lines 217-243): connection fields, the
`_connected` flag, and the log of calls issued to the wrapped client. -/
structure Publisher where
  end_point : String
  root_ca_path : String
  certificate_path : String
  private_key_path : String
  connected : Bool
  clientLog : List ClientEvent
  deriving DecidableEq

/-- `Publisher.__init__` (lines 218-224): stores paths, `_connected = False`. -/
def Publisher.init (end_point root_ca_path certificate_path private_key_path : String) :
    Publisher :=
  { end_point := end_point, root_ca_path := root_ca_path,
    certificate_path := certificate_path, private_key_path := private_key_path,
    connected := false, clientLog := [] }

/-- `Publisher.connect` (lines 230-236) with an explicit outcome `clientOk`
for the underlying `self._client.connect()` call: credentials and endpoint
are configured and the connect call is issued unconditionally, and
`self._connected = True` executes only when the client call returns instead
of raising.  The `Bool` result is `false` when the exception propagates. -/
def Publisher.connectTry (clientOk : Bool) (p : Publisher) : Publisher × Bool :=
  let p1 := { p with clientLog := p.clientLog ++
      [ClientEvent.configureCredentials p.root_ca_path p.private_key_path p.certificate_path,
       ClientEvent.configureEndpoint p.end_point 8883,
       ClientEvent.connectCall] }
  if clientOk then ({ p1 with connected := true }, true) else (p1, false)

/-- `Publisher.publish` (lines 238-243) with an explicit outcome for a lazy
client connect: `if not self.connected: self.connect()`, then
`self._client.publish(topic, payload, qos)`.  When the lazy connect raises,
the publish call is never reached. -/
def Publisher.publishTry (clientOk : Bool) (p : Publisher) (topic payload : String)
    (qos : Nat) : Publisher × Bool :=
  if p.connected then
    ({ p with clientLog := p.clientLog ++ [ClientEvent.publishCall topic payload qos] }, true)
  else
    match p.connectTry clientOk with
    | (p1, true) =>
      ({ p1 with clientLog := p1.clientLog ++ [ClientEvent.publishCall topic payload qos] }, true)
    | (p1, false) => (p1, false)

/-- `Publisher.publish` when the underlying client never fails. -/
def Publisher.publish (p : Publisher) (topic payload : String) (qos : Nat) : Publisher :=
  (p.publishTry true topic payload qos).1

/-- Number of `connect` calls the Publisher has issued to its client. -/
def Publisher.connectCalls (p : Publisher) : Nat :=
  p.clientLog.count ClientEvent.connectCall

/-- `Subscriber` (awsiot.py lines 246-271): identical connection state. -/
structure Subscriber where
  end_point : String
  root_ca_path : String
  certificate_path : String
  private_key_path : String
  connected : Bool
  clientLog : List ClientEvent
  deriving DecidableEq

/-- `Subscriber.__init__` (lines 247-253). -/
def Subscriber.init (end_point root_ca_path certificate_path private_key_path : String) :
    Subscriber :=
  { end_point := end_point, root_ca_path := root_ca_path,
    certificate_path := certificate_path, private_key_path := private_key_path,
    connected := false, clientLog := [] }

/-- `Subscriber.connect` (lines 259-265), as `Publisher.connectTry`. -/
def Subscriber.connectTry (clientOk : Bool) (s : Subscriber) : Subscriber × Bool :=
  let s1 := { s with clientLog := s.clientLog ++
      [ClientEvent.configureCredentials s.root_ca_path s.private_key_path s.certificate_path,
       ClientEvent.configureEndpoint s.end_point 8883,
       ClientEvent.connectCall] }
  if clientOk then ({ s1 with connected := true }, true) else (s1, false)

/-- `Subscriber.subscribe` (lines 267-271) with an explicit outcome for a
lazy client connect; on success it issues
`self._client.subscribe(topic, qos, callback)`. -/
def Subscriber.subscribeTry (clientOk : Bool) (s : Subscriber) (topic : String)
    (callback qos : Nat) : Subscriber × Bool :=
  if s.connected then
    ({ s with clientLog := s.clientLog ++ [ClientEvent.subscribeCall topic qos callback] }, true)
  else
    match s.connectTry clientOk with
    | (s1, true) =>
      ({ s1 with clientLog := s1.clientLog ++ [ClientEvent.subscribeCall topic qos callback] },
        true)
    | (s1, false) => (s1, false)

/-- `Subscriber.subscribe` when the underlying client never fails. -/
def Subscriber.subscribe (s : Subscriber) (topic : String) (callback qos : Nat) : Subscriber :=
  (s.subscribeTry true topic callback qos).1

/-- Number of `connect` calls the Subscriber has issued to its client. -/
def Subscriber.connectCalls (s : Subscriber) : Nat :=
  s.clientLog.count ClientEvent.connectCall

/-- A sequence of `publish` calls on one Publisher. -/
def publishFold (p : Publisher) (msgs : List (String × String × Nat)) : Publisher :=
  msgs.foldl (fun acc m => acc.publish m.1 m.2.1 m.2.2) p

/-- A sequence of `subscribe` calls on one Subscriber. -/
def subscribeFold (s : Subscriber) (reqs : List (String × Nat × Nat)) : Subscriber :=
  reqs.foldl (fun acc m => acc.subscribe m.1 m.2.1 m.2.2) s

/-- `STATE = 'state'` (awsiot.py line 17). -/
def STATE : String := "state"

/-- `THING_SHADOW = "$aws/things/\x7b\x7d/shadow/update"` (awsiot.py line 21). -/
def THING_SHADOW : String := "$aws/things/\x7b\x7d/shadow/update"

/-- Worker for `pyFormat1`: copy the template, substituting the argument
for each occurrence of the two-character placeholder. -/
def formatGo (arg : List Char) : Nat → List Char → List Char
  | _, [] => []
  | 0, l => l
  | fuel + 1, c :: rest =>
    if [Char.ofNat 123, Char.ofNat 125].isPrefixOf (c :: rest) then
      arg ++ formatGo arg fuel (List.drop 1 rest)
    else c :: formatGo arg fuel rest

/-- Python `template.format(arg)` for a template that contains the
placeholder exactly once, as `THING_SHADOW` does. -/
def pyFormat1 (template arg : String) : String :=
  String.mk (formatGo arg.data template.data.length template.data)

/-- `iot_thing_topic(thing)` (awsiot.py lines 197-198):
`THING_SHADOW.format(thing)`. -/
def iot_thing_topic (thing : String) : String := pyFormat1 THING_SHADOW thing

mutual
/-- A Python value handed to `json.dumps`.  `JsonItems`/`JsonFields` are
inlined lists so that all recursion below is structural. -/
inductive Json where
  | null : Json
  | bool (b : Bool) : Json
  | num (n : Int) : Json
  | str (s : String) : Json
  | arr (items : JsonItems) : Json
  | obj (fields : JsonFields) : Json
inductive JsonItems where
  | nil : JsonItems
  | cons (hd : Json) (tl : JsonItems) : JsonItems
inductive JsonFields where
  | nil : JsonFields
  | cons (key : String) (val : Json) (tl : JsonFields) : JsonFields
end

/-- Lower-case hexadecimal digit, as Python's `\uxxxx` escapes use. -/
def hexDigit (n : Nat) : Char :=
  if n < 10 then Char.ofNat (48 + n) else Char.ofNat (87 + n)

/-- A `\uxxxx` escape for a code unit below 0x10000. -/
def uHex (n : Nat) : List Char :=
  ['\\', 'u', hexDigit (n / 4096 % 16), hexDigit (n / 256 % 16),
   hexDigit (n / 16 % 16), hexDigit (n % 16)]

/-- Python `json.dumps` escaping of one character with the default
`ensure_ascii=True`: printable ASCII other than quote and backslash is kept,
short escapes for the usual control characters, `\uxxxx` for the rest, and
surrogate pairs above the basic plane. -/
def escapeChar (c : Char) : List Char :=
  if c = '\\' then ['\\', '\\']
  else if c = '"' then ['\\', '"']
  else if c = '\n' then ['\\', 'n']
  else if c = '\r' then ['\\', 'r']
  else if c = '\t' then ['\\', 't']
  else if c.toNat = 8 then ['\\', 'b']
  else if c.toNat = 12 then ['\\', 'f']
  else if c.toNat < 32 then uHex c.toNat
  else if c.toNat < 127 then [c]
  else if c.toNat < 65536 then uHex c.toNat
  else uHex (55296 + (c.toNat - 65536) / 1024) ++ uHex (56320 + (c.toNat - 65536) % 1024)

/-- Escape a character list and close the double quote. -/
def escapeList : List Char → List Char
  | [] => ['"']
  | c :: rest => escapeChar c ++ escapeList rest

/-- Python `json.dumps` of a string value: quote, escaped characters,
closing quote. -/
def jsonDumpString (s : String) : String := String.mk ('"' :: escapeList s.data)

mutual
/-- Python `json.dumps` with its default separators `(', ', ': ')`. -/
def jsonDumps : Json → String
  | .null => "null"
  | .bool true => "true"
  | .bool false => "false"
  | .num n => toString n
  | .str s => jsonDumpString s
  | .arr items => "[" ++ jsonDumpsItems items ++ "]"
  | .obj fields => "\x7b" ++ jsonDumpsFields fields ++ "\x7d"
def jsonDumpsItems : JsonItems → String
  | .nil => ""
  | .cons x .nil => jsonDumps x
  | .cons x (.cons y tl) => jsonDumps x ++ ", " ++ jsonDumpsItems (.cons y tl)
def jsonDumpsFields : JsonFields → String
  | .nil => ""
  | .cons k v .nil => jsonDumpString k ++ ": " ++ jsonDumps v
  | .cons k v (.cons k2 v2 tl) =>
    jsonDumpString k ++ ": " ++ jsonDumps v ++ ", " ++ jsonDumpsFields (.cons k2 v2 tl)
end

/-- `iot_payload(target, doc)` (awsiot.py lines 201-202):
`json.dumps({STATE: {target: doc}})`. -/
def iot_payload (target : String) (doc : Json) : String :=
  jsonDumps (Json.obj (JsonFields.cons STATE
    (Json.obj (JsonFields.cons target doc JsonFields.nil)) JsonFields.nil))

example : tokenizer "a/b".data '/' (some "cmd".data) = ["a/b/cmd".data, "a/cmd".data] := by decide

example : tokenizer "a/b".data '/' none = ["a/b".data, "a".data] := by decide

example : topic_search "home/lr".data "home/lr/on".data
    = SearchOutcome.returned (some "on".data) none := by decide

example : topic_search "home/lr".data "home/lr/set/75".data
    = SearchOutcome.returned (some "set".data) (some "75".data) := by decide

example : topic_search "home/lr".data "unrelated/topic".data = SearchOutcome.fellThrough := by
  decide

example : topic_search "home/lr".data "home/lr".data = SearchOutcome.typeError := by decide

example : iot_thing_topic "pi3" = "$aws/things/pi3/shadow/update" := by decide

example : iot_payload "reported" (Json.obj (JsonFields.cons "supervised" (Json.str "a, b")
    JsonFields.nil))
    = "\x7b\"state\": \x7b\"reported\": \x7b\"supervised\": \"a, b\"\x7d\x7d\x7d" := by decide

/-- If the step of `topic_search` for candidate `cand` returns a command
`c` (with optional argument `a`), then the guard `input in commands` held,
i.e. `input` is one of the tokenizer candidates rebuilt with `c` (or
`c/a`) as trailing suffix. -/
theorem searchStep_mem (topic input cand c : List Char) (a : Option (List Char))
    (h : searchStep topic input cand = SearchOutcome.returned (some c) a) :
    input ∈ tokenizer topic '/' (some (suffixOf c a)) := by
  unfold searchStep at h
  rcases hT : pyTemp input cand with _ | ⟨cmd, rest⟩ <;> rw [hT] at h
  · exact absurd h (by simp [searchStepTokens])
  · simp only [searchStepTokens] at h
    by_cases hm : input ∈ tokenizer topic '/' (some (suffixOf cmd rest.head?))
    · rw [if_pos hm] at h
      injection h with h1 h2
      injection h1 with h1
      subst h1; subst h2
      exact hm
    · rw [if_neg hm] at h
      injection h with h1 _
      exact absurd h1 (by simp)

/-- C1: a successful match always reconstructs the concrete topic: if
`topic_search` returns command `c` (and optional argument `a`), then the
tokenizer candidates of the pattern with trailing suffix `c` (or `c/a`)
contain the concrete topic exactly. -/
theorem c1_round_trip (P T c : List Char) (a : Option (List Char))
    (h : topic_search P T = SearchOutcome.returned (some c) a) :
    T ∈ tokenizer P '/' (some (suffixOf c a)) := by
  unfold topic_search at h
  generalize tokenizer P '/' none = cands at h
  induction cands with
  | nil => exact absurd h (by simp [topicSearchGo])
  | cons i rest ih =>
    simp only [topicSearchGo] at h
    split at h
    · exact searchStep_mem P T i c a h
    · exact ih h

/-- Witness for C1 at the pattern `home/lr` and topic `home/lr/on`. -/
theorem c1_round_trip_witness :
    "home/lr/on".data ∈ tokenizer "home/lr".data '/' (some (suffixOf "on".data none)) :=
  c1_round_trip "home/lr".data "home/lr/on".data "on".data none (by decide)

/-- C2 counterexample: for pattern `a/b` and topic `a/b`, the less specific
candidate `a` is a prefix of the topic and its step yields the exact
reconstruction `("b", None)`, yet `topic_search` does not return it — it
raises a `TypeError` inside the first (most specific) matching candidate. -/
theorem c2_counterexample :
    ("a".data ∈ tokenizer "a/b".data '/' none
      ∧ ("a".data).isPrefixOf "a/b".data = true
      ∧ searchStep "a/b".data "a/b".data "a".data
          = SearchOutcome.returned (some "b".data) none)
    ∧ topic_search "a/b".data "a/b".data ≠ SearchOutcome.returned (some "b".data) none
    ∧ topic_search "a/b".data "a/b".data = SearchOutcome.typeError := by decide

/-- C2 amended: `topic_search` examines only the FIRST candidate prefix of
the pattern that the concrete topic starts with; its result is entirely the
step outcome of that single candidate, and it reports no match when no
candidate at all is a prefix of the topic. -/
theorem c2_amended_first_candidate_only (topic input : List Char) :
    topic_search topic input =
      match (tokenizer topic '/' none).find? (fun cand => cand.isPrefixOf input) with
      | none => SearchOutcome.fellThrough
      | some p => searchStep topic input p := by
  unfold topic_search
  induction tokenizer topic '/' none with
  | nil => rfl
  | cons i rest ih =>
    by_cases hp : i.isPrefixOf input
    · simp [topicSearchGo, List.find?, hp]
    · simp only [List.find?, topicSearchGo, Bool.not_eq_true] at *
      rw [if_neg (by simp [hp]), hp]
      exact ih

/-- Splitting never yields an empty list of segments (Python `split` returns
at least one segment). -/
theorem pySplitChar_ne_nil (c : Char) (s : List Char) : pySplitChar c s ≠ [] := by
  induction s with
  | nil => simp [pySplitChar]
  | cons a rest ih =>
    simp only [pySplitChar]
    split
    · simp
    · split
      · simp
      · simp

/-- The tokenizer worker emits exactly one candidate per loop iteration:
with enough fuel, as many candidates as segments. -/
theorem tokenizerGo_length (c : Char) (suffix : Option (List Char)) :
    ∀ (fuel : Nat) (l : List (List Char)), l.length ≤ fuel →
      (tokenizerGo c suffix fuel l).length = l.length := by
  intro fuel
  induction fuel with
  | zero =>
    intro l h
    cases l with
    | nil => rfl
    | cons a rest => exact absurd h (by simp)
  | succ n ih =>
    intro l h
    cases l with
    | nil => rfl
    | cons a rest =>
      simp only [tokenizerGo, List.length_cons]
      rw [ih (a :: rest).dropLast (by simp only [List.length_dropLast, List.length_cons] at h ⊢; omega)]
      simp [List.length_dropLast]

/-- Rejoining a single segment is that segment. -/
theorem intercalate_single (c : Char) (a : List Char) : List.intercalate [c] [a] = a := by
  simp [List.intercalate]

/-- With enough fuel and a non-empty segment list, the LAST candidate the
tokenizer worker emits (suffix `None`) is the rejoin of the first segment
alone, i.e. the first segment itself. -/
theorem tokenizerGo_getLast (c : Char) :
    ∀ (fuel : Nat) (l : List (List Char)), l.length ≤ fuel → l ≠ [] →
      (tokenizerGo c none fuel l).getLast? = some (List.intercalate [c] (l.take 1)) := by
  intro fuel
  induction fuel with
  | zero =>
    intro l h hne
    cases l with
    | nil => exact absurd rfl hne
    | cons a rest => exact absurd h (by simp)
  | succ n ih =>
    intro l h hne
    cases l with
    | nil => exact absurd rfl hne
    | cons a rest =>
      cases rest with
      | nil => simp [tokenizerGo]
      | cons b rest2 =>
        have hdl : (a :: b :: rest2).dropLast = a :: (b :: rest2).dropLast := rfl
        simp only [tokenizerGo, hdl]
        have hlen : (a :: (b :: rest2).dropLast).length ≤ n := by
          simp [List.length_dropLast] at h ⊢; omega
        have hlast := ih (a :: (b :: rest2).dropLast) hlen (by simp)
        have hne2 : tokenizerGo c none n (a :: (b :: rest2).dropLast) ≠ [] := by
          intro hcon
          have := tokenizerGo_length c none n (a :: (b :: rest2).dropLast) hlen
          rw [hcon] at this
          simp at this
        rcases hgo : tokenizerGo c none n (a :: (b :: rest2).dropLast) with _ | ⟨y, ys⟩
        · exact absurd hgo hne2
        · rw [List.getLast?_cons_cons]
          rw [hgo] at hlast
          exact hlast

/-- C3 counterexample: `tokenizer("a/b", "/", "cmd")` returns only the TWO
candidates `["a/b/cmd", "a/cmd"]`, not the three the claim lists; on the
2-segment path `a/b` the suffix-free tokenizer returns 2 candidates, not
2+1, and its last candidate is `"a"`, not the empty string. -/
theorem c3_counterexample :
    tokenizer "a/b".data '/' (some "cmd".data)
        ≠ ["a/b/cmd".data, "a/cmd".data, "cmd".data]
    ∧ tokenizer "a/b".data '/' (some "cmd".data) = ["a/b/cmd".data, "a/cmd".data]
    ∧ (tokenizer "a/b".data '/' none).length ≠ 2 + 1
    ∧ (tokenizer "a/b".data '/' none).getLast? ≠ some "".data := by decide

/-- C3 amended: `tokenizer(path, "/", suffix)` on an N-segment path returns
exactly N candidates (not N+1), from most specific down to the first
segment: with suffix `None` the last candidate is the path's FIRST segment
(not the empty string), and `tokenizer("a/b", "/", "cmd")` returns the two
candidates `["a/b/cmd", "a/cmd"]`. -/
theorem c3_amended_candidate_count (s : List Char) (suffix : Option (List Char)) :
    (tokenizer s '/' suffix).length = (pySplitChar '/' s).length
    ∧ (tokenizer s '/' none).getLast? = (pySplitChar '/' s).head?
    ∧ tokenizer "a/b".data '/' (some "cmd".data) = ["a/b/cmd".data, "a/cmd".data] := by
  refine ⟨?_, ?_, by decide⟩
  · exact tokenizerGo_length '/' suffix (pySplitChar '/' s).length (pySplitChar '/' s) le_rfl
  · rcases hs : pySplitChar '/' s with _ | ⟨seg, segs⟩
    · exact absurd hs (pySplitChar_ne_nil '/' s)
    · have := tokenizerGo_getLast '/' (seg :: segs).length (seg :: segs) le_rfl (by simp)
      unfold tokenizer
      rw [hs]
      rw [this]
      simp [intercalate_single]

/-- C4: at the failing input pattern = topic = `home/lr`, the code does not
return a quiet no-match: the membership test `input in commands` is reached
with `commands = None` and raises `TypeError`. -/
theorem c4_pattern_equals_topic_raises :
    topic_search "home/lr".data "home/lr".data = SearchOutcome.typeError := by decide

/-- C6 counterexample: for pattern `a` and topic `a/x/a`, the candidate `a`
is a prefix of the topic, but the code's remainder (Python `replace`
removes EVERY occurrence of `a`, giving `/x/`) differs from the claim's
first-occurrence remainder `/x/a`; the code extracts only the token `x` and
reports no match, although the claim's extraction `("x", "a")` would have
reconstructed the topic exactly. -/
theorem c6_counterexample :
    ("a".data).isPrefixOf "a/x/a".data = true
    ∧ pyReplaceDel "a/x/a".data "a".data ≠ specRemoveFirst "a/x/a".data "a".data
    ∧ pyTemp "a/x/a".data "a".data = ["x".data]
    ∧ (pySplitChar '/' (specRemoveFirst "a/x/a".data "a".data)).filter (fun t => !t.isEmpty)
        = ["x".data, "a".data]
    ∧ "a/x/a".data ∈ tokenizer "a".data '/' (some (suffixOf "x".data (some "a".data)))
    ∧ topic_search "a".data "a/x/a".data = SearchOutcome.returned none none := by decide

/-- C6 amended: for the candidate prefix examined, the remainder is the
concrete topic with EVERY occurrence of the candidate removed (later
occurrences inside the topic are deleted too); its non-empty `/`-separated
tokens supply the command (first token) and argument (second token) that a
successful step returns. -/
theorem c6_amended_remove_all (topic input cand c : List Char) (a : Option (List Char))
    (h : searchStep topic input cand = SearchOutcome.returned (some c) a) :
    (pyTemp input cand).head? = some c
    ∧ (pyTemp input cand).tail.head? = a
    ∧ pyTemp input cand
        = (pySplitChar '/' (pyReplaceDel input cand)).filter (fun t => !t.isEmpty) := by
  refine ⟨?_, ?_, rfl⟩ <;>
  · unfold searchStep at h
    rcases hT : pyTemp input cand with _ | ⟨cmd, rest⟩ <;> rw [hT] at h
    · exact absurd h (by simp [searchStepTokens])
    · simp only [searchStepTokens] at h
      by_cases hm : input ∈ tokenizer topic '/' (some (suffixOf cmd rest.head?))
      · rw [if_pos hm] at h
        injection h with h1 h2
      · rw [if_neg hm] at h
        injection h with h1 h2
        exact absurd h1 (by simp)

/-- Witness for the amended C6 at pattern `a`, topic `a/x`, candidate `a`. -/
theorem c6_amended_remove_all_witness :
    (pyTemp "a/x".data "a".data).head? = some "x".data
    ∧ (pyTemp "a/x".data "a".data).tail.head? = none
    ∧ pyTemp "a/x".data "a".data
        = (pySplitChar '/' (pyReplaceDel "a/x".data "a".data)).filter (fun t => !t.isEmpty) :=
  c6_amended_remove_all "a".data "a/x".data "a".data "x".data none (by decide)

/-- C7: one extra segment yields that segment as the command with no
argument; two extra segments yield command and argument. -/
theorem c7_command_argument_examples :
    topic_search "home/lr".data "home/lr/on".data
        = SearchOutcome.returned (some "on".data) none
    ∧ topic_search "home/lr".data "home/lr/set/75".data
        = SearchOutcome.returned (some "set".data) (some "75".data) := by decide

/-- C8: when no candidate prefix of the pattern is a string prefix of the
topic, the loop finishes without returning and the caller obtains neither a
command nor an argument. -/
theorem c8_unrelated_topic_no_match :
    topic_search "home/lr".data "unrelated/topic".data = SearchOutcome.fellThrough := by
  decide

/-- A `publish` call leaves the session connected, and issues a client
connect exactly when the session was not yet connected. -/
theorem Publisher.publish_connected (p : Publisher) (t pl : String) (q : Nat) :
    (p.publish t pl q).connected = true
    ∧ (p.publish t pl q).connectCalls
        = (if p.connected then p.connectCalls else p.connectCalls + 1) := by
  unfold Publisher.publish Publisher.publishTry Publisher.connectTry Publisher.connectCalls
  by_cases h : p.connected <;>
    simp [h, List.count_append, List.count_cons, List.count_nil]

/-- A `subscribe` call leaves the session connected, and issues a client
connect exactly when the session was not yet connected. -/
theorem Subscriber.subscribe_connected (s : Subscriber) (t : String) (cb q : Nat) :
    (s.subscribe t cb q).connected = true
    ∧ (s.subscribe t cb q).connectCalls
        = (if s.connected then s.connectCalls else s.connectCalls + 1) := by
  unfold Subscriber.subscribe Subscriber.subscribeTry Subscriber.connectTry
    Subscriber.connectCalls
  by_cases h : s.connected <;>
    simp [h, List.count_append, List.count_cons, List.count_nil]

/-- Once connected, any further sequence of publishes keeps the session
connected and issues no further client connect. -/
theorem publishFold_stays (msgs : List (String × String × Nat)) :
    ∀ p : Publisher, p.connected = true →
      (publishFold p msgs).connected = true
      ∧ (publishFold p msgs).connectCalls = p.connectCalls := by
  induction msgs with
  | nil => intro p h; exact ⟨h, rfl⟩
  | cons m rest ih =>
    intro p h
    have hstep := Publisher.publish_connected p m.1 m.2.1 m.2.2
    have hfold : publishFold p (m :: rest) = publishFold (p.publish m.1 m.2.1 m.2.2) rest := rfl
    obtain ⟨hc, hn⟩ := ih (p.publish m.1 m.2.1 m.2.2) hstep.1
    rw [hfold, hn, hstep.2, if_pos h]
    exact ⟨hc, rfl⟩

/-- Once connected, any further sequence of subscribes keeps the session
connected and issues no further client connect. -/
theorem subscribeFold_stays (reqs : List (String × Nat × Nat)) :
    ∀ s : Subscriber, s.connected = true →
      (subscribeFold s reqs).connected = true
      ∧ (subscribeFold s reqs).connectCalls = s.connectCalls := by
  induction reqs with
  | nil => intro s h; exact ⟨h, rfl⟩
  | cons m rest ih =>
    intro s h
    have hstep := Subscriber.subscribe_connected s m.1 m.2.1 m.2.2
    have hfold : subscribeFold s (m :: rest) = subscribeFold (s.subscribe m.1 m.2.1 m.2.2) rest :=
      rfl
    obtain ⟨hc, hn⟩ := ih (s.subscribe m.1 m.2.1 m.2.2) hstep.1
    rw [hfold, hn, hstep.2, if_pos h]
    exact ⟨hc, rfl⟩

/-- C5: a freshly constructed Publisher/Subscriber is disconnected; any
non-empty sequence of `publish` (resp. `subscribe`) calls connects on the
first call and issues exactly one client connect in total. -/
theorem c5_lazy_connect_once (e r ce k : String)
    (msgs : List (String × String × Nat)) (reqs : List (String × Nat × Nat))
    (hm : msgs ≠ []) (hr : reqs ≠ []) :
    (Publisher.init e r ce k).connected = false
    ∧ (publishFold (Publisher.init e r ce k) msgs).connected = true
    ∧ (publishFold (Publisher.init e r ce k) msgs).connectCalls = 1
    ∧ (Subscriber.init e r ce k).connected = false
    ∧ (subscribeFold (Subscriber.init e r ce k) reqs).connected = true
    ∧ (subscribeFold (Subscriber.init e r ce k) reqs).connectCalls = 1 := by
  cases msgs with
  | nil => exact absurd rfl hm
  | cons m rest =>
    cases reqs with
    | nil => exact absurd rfl hr
    | cons q qrest =>
      have hp0 : (Publisher.init e r ce k).connected = false := rfl
      have hs0 : (Subscriber.init e r ce k).connected = false := rfl
      have hp1 := Publisher.publish_connected (Publisher.init e r ce k) m.1 m.2.1 m.2.2
      have hs1 := Subscriber.subscribe_connected (Subscriber.init e r ce k) q.1 q.2.1 q.2.2
      rw [hp0, if_neg (by simp)] at hp1
      rw [hs0, if_neg (by simp)] at hs1
      have hpf := publishFold_stays rest _ hp1.1
      have hsf := subscribeFold_stays qrest _ hs1.1
      refine ⟨hp0, hpf.1, ?_, hs0, hsf.1, ?_⟩
      · rw [show publishFold (Publisher.init e r ce k) (m :: rest)
              = publishFold ((Publisher.init e r ce k).publish m.1 m.2.1 m.2.2) rest from rfl,
            hpf.2, hp1.2]
        rfl
      · rw [show subscribeFold (Subscriber.init e r ce k) (q :: qrest)
              = subscribeFold ((Subscriber.init e r ce k).subscribe q.1 q.2.1 q.2.2) qrest
            from rfl,
            hsf.2, hs1.2]
        rfl

/-- Witness for C5: three publishes and two subscribes on fresh sessions. -/
theorem c5_lazy_connect_once_witness :
    (Publisher.init "e" "r" "c" "k").connected = false
    ∧ (publishFold (Publisher.init "e" "r" "c" "k")
        [("t1", "p1", 1), ("t2", "p2", 0), ("t1", "p3", 1)]).connected = true
    ∧ (publishFold (Publisher.init "e" "r" "c" "k")
        [("t1", "p1", 1), ("t2", "p2", 0), ("t1", "p3", 1)]).connectCalls = 1
    ∧ (Subscriber.init "e" "r" "c" "k").connected = false
    ∧ (subscribeFold (Subscriber.init "e" "r" "c" "k")
        [("t3", 7, 1), ("t4", 8, 0)]).connected = true
    ∧ (subscribeFold (Subscriber.init "e" "r" "c" "k")
        [("t3", 7, 1), ("t4", 8, 0)]).connectCalls = 1 :=
  c5_lazy_connect_once "e" "r" "c" "k"
    [("t1", "p1", 1), ("t2", "p2", 0), ("t1", "p3", 1)] [("t3", 7, 1), ("t4", 8, 0)]
    (by decide) (by decide)

/-- C9: when the client connect raises during a lazy connect, the session's
connected flag stays `False`, the publish/subscribe never completes and no
message call is issued, and the next publish/subscribe attempts a client
connect again (and succeeds when the client does). -/
theorem c9_connect_failure_atomicity (p : Publisher) (s : Subscriber)
    (t pl : String) (cb q : Nat) (hp : p.connected = false) (hs : s.connected = false) :
    (p.publishTry false t pl q).1.connected = false
    ∧ (p.publishTry false t pl q).2 = false
    ∧ (p.publishTry false t pl q).1.connectCalls = p.connectCalls + 1
    ∧ (p.publishTry false t pl q).1.clientLog.count (ClientEvent.publishCall t pl q)
        = p.clientLog.count (ClientEvent.publishCall t pl q)
    ∧ ((p.publishTry false t pl q).1.publishTry true t pl q).1.connected = true
    ∧ ((p.publishTry false t pl q).1.publishTry true t pl q).1.connectCalls
        = p.connectCalls + 2
    ∧ (s.subscribeTry false t cb q).1.connected = false
    ∧ (s.subscribeTry false t cb q).2 = false
    ∧ (s.subscribeTry false t cb q).1.connectCalls = s.connectCalls + 1
    ∧ (s.subscribeTry false t cb q).1.clientLog.count (ClientEvent.subscribeCall t q cb)
        = s.clientLog.count (ClientEvent.subscribeCall t q cb)
    ∧ ((s.subscribeTry false t cb q).1.subscribeTry true t cb q).1.connected = true
    ∧ ((s.subscribeTry false t cb q).1.subscribeTry true t cb q).1.connectCalls
        = s.connectCalls + 2 := by
  unfold Publisher.publishTry Publisher.connectTry Publisher.connectCalls
    Subscriber.subscribeTry Subscriber.connectTry Subscriber.connectCalls
  simp [hp, hs, List.count_append, List.count_cons, List.count_nil]

/-- Witness for C9 on fresh sessions. -/
theorem c9_connect_failure_atomicity_witness :
    ((Publisher.init "e" "r" "c" "k").publishTry false "t" "pl" 1).1.connected = false
    ∧ ((Publisher.init "e" "r" "c" "k").publishTry false "t" "pl" 1).2 = false
    ∧ ((Publisher.init "e" "r" "c" "k").publishTry false "t" "pl" 1).1.connectCalls
        = (Publisher.init "e" "r" "c" "k").connectCalls + 1
    ∧ ((Publisher.init "e" "r" "c" "k").publishTry false "t" "pl" 1).1.clientLog.count
          (ClientEvent.publishCall "t" "pl" 1)
        = (Publisher.init "e" "r" "c" "k").clientLog.count (ClientEvent.publishCall "t" "pl" 1)
    ∧ (((Publisher.init "e" "r" "c" "k").publishTry false "t" "pl" 1).1.publishTry
          true "t" "pl" 1).1.connected = true
    ∧ (((Publisher.init "e" "r" "c" "k").publishTry false "t" "pl" 1).1.publishTry
          true "t" "pl" 1).1.connectCalls = (Publisher.init "e" "r" "c" "k").connectCalls + 2
    ∧ ((Subscriber.init "e" "r" "c" "k").subscribeTry false "t" 9 1).1.connected = false
    ∧ ((Subscriber.init "e" "r" "c" "k").subscribeTry false "t" 9 1).2 = false
    ∧ ((Subscriber.init "e" "r" "c" "k").subscribeTry false "t" 9 1).1.connectCalls
        = (Subscriber.init "e" "r" "c" "k").connectCalls + 1
    ∧ ((Subscriber.init "e" "r" "c" "k").subscribeTry false "t" 9 1).1.clientLog.count
          (ClientEvent.subscribeCall "t" 1 9)
        = (Subscriber.init "e" "r" "c" "k").clientLog.count (ClientEvent.subscribeCall "t" 1 9)
    ∧ (((Subscriber.init "e" "r" "c" "k").subscribeTry false "t" 9 1).1.subscribeTry
          true "t" 9 1).1.connected = true
    ∧ (((Subscriber.init "e" "r" "c" "k").subscribeTry false "t" 9 1).1.subscribeTry
          true "t" 9 1).1.connectCalls = (Subscriber.init "e" "r" "c" "k").connectCalls + 2 :=
  c9_connect_failure_atomicity (Publisher.init "e" "r" "c" "k")
    (Subscriber.init "e" "r" "c" "k") "t" "pl" 9 1 (by decide) (by decide)

/-- C10: the shadow-update topic is the fixed template instantiated with
the thing identifier, and the payload is the JSON encoding of the
single-key object `{"state": {target: doc}}`. -/
theorem c10_shadow_topic_and_payload (t target : String) (doc : Json) :
    iot_thing_topic t = "$aws/things/" ++ t ++ "/shadow/update"
    ∧ iot_payload target doc
        = "\x7b\"state\": \x7b" ++ jsonDumpString target ++ ": " ++ jsonDumps doc
            ++ "\x7d\x7d" := by
  constructor
  · rcases t with ⟨tl⟩
    rfl
  · simp only [iot_payload, jsonDumps, jsonDumpsFields]
    rw [show jsonDumpString STATE = "\"state\"" from rfl]
    generalize jsonDumpString target = B
    generalize jsonDumps doc = C
    rcases B with ⟨bl⟩
    rcases C with ⟨cl⟩
    apply String.ext
    simp only [String.data_append, List.append_assoc]
    rfl

end Awsiot
